import Mathlib

/-!
Shallow embedding of the StoragePilot file-classification engine.

The definitions below are translated from `src/tools/classifier.py`
(class `FileClassifier`, dataclass `FileClassification`, and the plan
aggregator `generate_organization_plan`) and, for the MCP front end,
from the second `FileClassifier` defined in `src/mcp_server.py`.

Modelling conventions:
* Python strings are Lean `String`s; the pattern matchers work on
  `List Char`.  Case operations (`str.lower`, `re.IGNORECASE`) are
  modelled on ASCII letters, which covers every fixed pattern and
  keyword of the source tables.
* Python dicts keyed by strings (`CATEGORY_MAP`, `base_destinations`,
  `seen_hashes`, `seen_filenames`) are association lists in insertion
  order; `alookup` is `dict.get`.
* The regular expressions of the source are fixed, so each one is
  translated into an explicit matcher with Python's `re.match`
  semantics: anchored at the start, not at the end, `IGNORECASE`,
  greedy `(.+)` groups (the matcher below searches for the longest
  split, which is what backtracking produces).
* `datetime.now()` inside `_build_destination` is an effect; the
  embedding threads the run time as an explicit `(year, month)`
  parameter `now` through `classifyFile`.  The file's own mtime is not
  an input anywhere, mirroring the source, which never reads it.
* Python floats (`0.9`, `0.95`, `0.85`, `0.3`, `0.5`) are `Rat`.
-/

namespace StoragePilot

/-- Result record, from the dataclass `FileClassification` in
`src/tools/classifier.py` (also used for the records produced by the
MCP server's classifier, whose dataclass has the same fields). -/
structure FileClassification where
  path : String
  filename : String
  extension : String
  category : String
  subcategory : String
  confidence : Rat
  suggested_destination : String
  action : String
  reason : String
  is_duplicate : Bool
  duplicate_of : Option String
  deriving Repr, DecidableEq

/-- One classifier instance: the constructor-supplied destination map
plus the two mutable correlation maps (`seen_hashes`,
`seen_filenames`) of `FileClassifier.__init__`. -/
structure FileClassifier where
  base_destinations : List (String × String)
  seen_hashes : List (String × String)
  seen_filenames : List (String × List String)
  deriving Repr, DecidableEq

/-- ASCII `str.lower` on one character. -/
def lcChar (c : Char) : Char :=
  if 'A' ≤ c ∧ c ≤ 'Z' then Char.ofNat (c.toNat + 32) else c

/-- ASCII `str.upper` on one character. -/
def ucChar (c : Char) : Char :=
  if 'a' ≤ c ∧ c ≤ 'z' then Char.ofNat (c.toNat - 32) else c

def lowerList (cs : List Char) : List Char := cs.map lcChar

/-- ASCII `str.lower`. -/
def strLowerA (s : String) : String := String.mk (lowerList s.toList)

/-- Python `str.capitalize`: first character upper-cased, the rest
lower-cased (ASCII model). -/
def capitalizeA (s : String) : String :=
  match s.toList with
  | [] => ""
  | c :: rest => String.mk (ucChar c :: lowerList rest)

/-- Case-sensitive "starts with" on character lists. -/
def startsWithPlain : List Char → List Char → Bool
  | [], _ => true
  | _ :: _, [] => false
  | a :: as, b :: bs => a == b && startsWithPlain as bs

/-- Case-insensitive "starts with" (ASCII), for `re.IGNORECASE`
matchers anchored at the start. -/
def startsWithCI : List Char → List Char → Bool
  | [], _ => true
  | _ :: _, [] => false
  | a :: as, b :: bs => lcChar a == lcChar b && startsWithCI as bs

/-- Substring containment (`needle in hay` on Python strings). -/
def containsL (needle : List Char) : List Char → Bool
  | [] => needle.isEmpty
  | b :: bs => startsWithPlain needle (b :: bs) || containsL needle bs

/-- Python `str.endswith` (case-sensitive). -/
def strEndsWith (s suf : String) : Bool :=
  startsWithPlain suf.toList.reverse s.toList.reverse

/-- Split a character list at every `/` (components of a POSIX path). -/
def splitOnSlash : List Char → List (List Char)
  | [] => [[]]
  | c :: rest =>
    match splitOnSlash rest with
    | [] => [[]]
    | g :: gs => if c = '/' then [] :: g :: gs else (c :: g) :: gs

/-- `pathlib.Path(p).name`: the last path component, with empty and
`.` components dropped (POSIX paths; no drive handling). -/
def pathName (p : String) : String :=
  String.mk (((splitOnSlash p.toList).filter (fun l => !l.isEmpty && l != ['.'])).getLastD [])

/-- Index of the last occurrence of a character, counting from `i`. -/
def lastIdxAux (c : Char) : List Char → Nat → Option Nat
  | [], _ => none
  | a :: as, i =>
    match lastIdxAux c as (i + 1) with
    | some j => some j
    | none => if a = c then some i else none

/-- CPython's suffix rule: the last `.` splits the name only when it is
neither the first nor the last character. -/
def splitExtAt (name : List Char) : Option Nat :=
  match lastIdxAux '.' name 0 with
  | some i => if 0 < i ∧ i + 1 < name.length then some i else none
  | none => none

/-- `pathlib.Path(name).stem`. -/
def pathStem (name : String) : String :=
  match splitExtAt name.toList with
  | some i => String.mk (name.toList.take i)
  | none => name

/-- `pathlib.Path(name).suffix`. -/
def pathSuffix (name : String) : String :=
  match splitExtAt name.toList with
  | some i => String.mk (name.toList.drop i)
  | none => ""

/-- `dict.get` over an insertion-ordered association list. -/
def alookup {α : Type} (k : String) : List (String × α) → Option α
  | [] => none
  | (k2, v) :: rest => if k = k2 then some v else alookup k rest

/-- First `some` produced by `f` over a list (ordered iteration over a
Python dict / pattern list, first match wins). -/
def findFirst {α β : Type} (f : α → Option β) : List α → Option β
  | [] => none
  | a :: as =>
    match f a with
    | some b => some b
    | none => findFirst f as

/-- `FileClassifier.CATEGORY_MAP`: extension → (category, subcategory),
verbatim from the source, in source order. -/
def CATEGORY_MAP : List (String × String × String) :=
  [ (".pdf", "documents", "general"),
    (".doc", "documents", "word"),
    (".docx", "documents", "word"),
    (".txt", "documents", "text"),
    (".md", "documents", "markdown"),
    (".rtf", "documents", "text"),
    (".odt", "documents", "text"),
    (".xls", "documents", "spreadsheet"),
    (".xlsx", "documents", "spreadsheet"),
    (".csv", "data", "tabular"),
    (".ppt", "documents", "presentation"),
    (".pptx", "documents", "presentation"),
    (".jpg", "images", "photo"),
    (".jpeg", "images", "photo"),
    (".png", "images", "graphic"),
    (".gif", "images", "animated"),
    (".webp", "images", "web"),
    (".svg", "images", "vector"),
    (".bmp", "images", "bitmap"),
    (".ico", "images", "icon"),
    (".heic", "images", "photo"),
    (".raw", "images", "raw"),
    (".mp4", "videos", "general"),
    (".mov", "videos", "general"),
    (".avi", "videos", "general"),
    (".mkv", "videos", "general"),
    (".wmv", "videos", "general"),
    (".webm", "videos", "web"),
    (".mp3", "audio", "music"),
    (".wav", "audio", "raw"),
    (".flac", "audio", "lossless"),
    (".aac", "audio", "music"),
    (".ogg", "audio", "music"),
    (".m4a", "audio", "music"),
    (".py", "code", "python"),
    (".js", "code", "javascript"),
    (".ts", "code", "typescript"),
    (".jsx", "code", "react"),
    (".tsx", "code", "react"),
    (".java", "code", "java"),
    (".go", "code", "golang"),
    (".rs", "code", "rust"),
    (".cpp", "code", "cpp"),
    (".c", "code", "c"),
    (".h", "code", "header"),
    (".cs", "code", "csharp"),
    (".rb", "code", "ruby"),
    (".php", "code", "php"),
    (".swift", "code", "swift"),
    (".kt", "code", "kotlin"),
    (".sh", "code", "shell"),
    (".bash", "code", "shell"),
    (".zsh", "code", "shell"),
    (".sql", "code", "sql"),
    (".html", "code", "web"),
    (".css", "code", "web"),
    (".scss", "code", "web"),
    (".less", "code", "web"),
    (".json", "data", "json"),
    (".xml", "data", "xml"),
    (".yaml", "data", "yaml"),
    (".yml", "data", "yaml"),
    (".toml", "data", "config"),
    (".ini", "data", "config"),
    (".env", "data", "config"),
    (".db", "data", "database"),
    (".sqlite", "data", "database"),
    (".sqlite3", "data", "database"),
    (".h5", "models", "keras"),
    (".pt", "models", "pytorch"),
    (".pth", "models", "pytorch"),
    (".onnx", "models", "onnx"),
    (".pkl", "models", "pickle"),
    (".joblib", "models", "sklearn"),
    (".safetensors", "models", "safetensors"),
    (".ckpt", "models", "checkpoint"),
    (".zip", "archives", "zip"),
    (".tar", "archives", "tar"),
    (".gz", "archives", "gzip"),
    (".tar.gz", "archives", "targz"),
    (".tgz", "archives", "targz"),
    (".rar", "archives", "rar"),
    (".7z", "archives", "7zip"),
    (".bz2", "archives", "bzip2"),
    (".dmg", "installers", "macos"),
    (".pkg", "installers", "macos"),
    (".exe", "installers", "windows"),
    (".msi", "installers", "windows"),
    (".deb", "installers", "linux"),
    (".rpm", "installers", "linux"),
    (".appimage", "installers", "linux"),
    (".log", "system", "logs"),
    (".tmp", "system", "temp"),
    (".bak", "system", "backup"),
    (".swp", "system", "swap"),
    (".DS_Store", "system", "macos") ]

/-- `FileClassifier.DOCUMENT_KEYWORDS`: keyword → (category,
subcategory), verbatim, in source (dict insertion) order. -/
def DOCUMENT_KEYWORDS : List (String × String × String) :=
  [ ("invoice", "finance", "invoices"),
    ("receipt", "finance", "receipts"),
    ("bill", "finance", "bills"),
    ("payment", "finance", "payments"),
    ("tax", "finance", "tax"),
    ("w2", "finance", "tax"),
    ("1099", "finance", "tax"),
    ("contract", "legal", "contracts"),
    ("agreement", "legal", "agreements"),
    ("nda", "legal", "nda"),
    ("terms", "legal", "terms"),
    ("resume", "career", "resumes"),
    ("cv", "career", "resumes"),
    ("cover_letter", "career", "cover_letters"),
    ("meeting", "work", "meetings"),
    ("notes", "work", "notes"),
    ("presentation", "work", "presentations"),
    ("report", "work", "reports"),
    ("proposal", "work", "proposals"),
    ("screenshot", "images", "screenshots"),
    ("screen_shot", "images", "screenshots"),
    ("capture", "images", "screenshots") ]

/-- The six tokens of `SCREENSHOT_PATTERNS`; each source pattern is
`token.*` under `re.match` + `IGNORECASE`, i.e. a case-insensitive
"starts with token" test. -/
def SCREENSHOT_TOKENS : List String :=
  ["Screenshot", "Screen Shot", "Capture", "Schermata", "Captura", "Bildschirmfoto"]

/-- `FileClassifier._matches_patterns(filename, SCREENSHOT_PATTERNS)`. -/
def matchesScreenshot (filename : String) : Bool :=
  SCREENSHOT_TOKENS.any (fun t => startsWithCI t.toList filename.toList)

/-- Number of leading ASCII digits. -/
def countDigits : List Char → Nat
  | [] => 0
  | c :: rest => if c.isDigit then countDigits rest + 1 else 0

/-- `re.match(tok + r"\d+", ·, IGNORECASE)` generalised: token then at
least `k` digits (and anything after).  With `k = 0` it is a plain
case-insensitive "starts with token" test. -/
def tokThenDigits (tok : String) (k : Nat) (cs : List Char) : Bool :=
  startsWithCI tok.toList cs && countDigits (cs.drop tok.length) ≥ k

/-- The `\d{8}_\d{6}` photo pattern of `PHOTO_PATTERNS` under
`re.match`: eight digits, an underscore, six digits, anything after. -/
def dateTimeStamp (cs : List Char) : Bool :=
  countDigits cs ≥ 8 &&
    (match cs.drop 8 with
     | '_' :: t => countDigits t ≥ 6
     | _ => false)

/-- `FileClassifier._matches_patterns(filename, PHOTO_PATTERNS)`:
`IMG_\d+`, `DSC_\d+`, `DCIM.*`, `Photo_\d+`, `PXL_\d+`,
`\d{8}_\d{6}`, each anchored at the start, case-insensitive. -/
def matchesPhoto (filename : String) : Bool :=
  tokThenDigits "IMG_" 1 filename.toList ||
  tokThenDigits "DSC_" 1 filename.toList ||
  startsWithCI "DCIM".toList filename.toList ||
  tokThenDigits "Photo_" 1 filename.toList ||
  tokThenDigits "PXL_" 1 filename.toList ||
  dateTimeStamp filename.toList

/-- `FileClassifier._analyze_document_name`: first keyword (in table
order) contained in the lower-cased filename wins; a keyword mapping to
category `images` is redirected to `documents` as in the source. -/
def analyzeDocumentName (filename : String) : Option (String × String) :=
  findFirst
    (fun kv =>
      if containsL kv.1.toList (lowerList filename.toList) then
        some ((if kv.2.1 = "images" then "documents" else kv.2.1), kv.2.2)
      else none)
    DOCUMENT_KEYWORDS

/-- Longest (possibly empty) leading group `g` of `cs` such that the
remainder satisfies `cond`; `none` when no split works.  This is the
greedy-`(.+)`-with-backtracking search of `re.match(r"(.+)...", s)`
shifted by one character (the nonempty-group wrapper is `greedyBase`). -/
def greedyBase0 (cond : List Char → Bool) : List Char → Option (List Char)
  | [] => if cond [] then some [] else none
  | c :: rest =>
    match greedyBase0 cond rest with
    | some g => some (c :: g)
    | none => if cond (c :: rest) then some [] else none

/-- Longest nonempty group `(.+)` such that the rest of the input
satisfies `cond`; Python group 1 of `re.match(r"(.+)<rest>", s)`. -/
def greedyBase (cond : List Char → Bool) : List Char → Option (List Char)
  | [] => none
  | c :: rest => (greedyBase0 cond rest).map (fun g => c :: g)

/-- Whitespace class `\s` of Python `re` (ASCII part). -/
def isPySpace (c : Char) : Bool :=
  c = ' ' || c = '\t' || c = '\n' || c = '\r' || c.toNat = 11 || c.toNat = 12

/-- Remainder matcher for `(.+)\s*\((\d+)\)`: optional whitespace, an
opening parenthesis, at least one digit, a closing parenthesis. -/
def parenDigits (cs : List Char) : Bool :=
  match cs.dropWhile isPySpace with
  | '(' :: t => countDigits t ≥ 1 && ((t.drop (countDigits t)).head? == some ')')
  | _ => false

/-- The remainder matchers of `VERSION_PATTERNS`, in source order:
`(.+)_v(\d+)`, `(.+)_version(\d+)`, `(.+)_final`, `(.+)_FINAL`,
`(.+)_copy`, `(.+)_Copy`, `(.+)\s*\((\d+)\)`, `(.+)_(\d{8})` (all with
`IGNORECASE`, so the `_FINAL`/`_Copy` entries repeat their lower-case
twins). -/
def VERSION_CONDS : List (List Char → Bool) :=
  [ tokThenDigits "_v" 1,
    tokThenDigits "_version" 1,
    tokThenDigits "_final" 0,
    tokThenDigits "_FINAL" 0,
    tokThenDigits "_copy" 0,
    tokThenDigits "_Copy" 0,
    parenDigits,
    tokThenDigits "_" 8 ]

/-- `FileClassifier._check_version_pattern`, restricted to the value
the caller uses: group 1 (`match.groups()[0]`) of the first pattern
matching the stem. -/
def checkVersionPattern (stem : String) : Option String :=
  (findFirst (fun cond => greedyBase cond stem.toList) VERSION_CONDS).map String.mk

/-- `FileClassifier._determine_action`. -/
def determineAction (category subcategory : String) (is_dup : Bool) : String :=
  if is_dup then "review"
  else if category = "installers" then "delete"
  else if category = "system" then "delete"
  else if category = "unknown" then "review"
  else "move"

/-- The defaults of `FileClassifier.__init__`'s `base_destinations`. -/
def defaultDestinations : List (String × String) :=
  [ ("documents", "~/Documents/Sorted"),
    ("images", "~/Pictures/Sorted"),
    ("videos", "~/Videos/Sorted"),
    ("audio", "~/Music/Sorted"),
    ("code", "~/workspace/code_downloads"),
    ("data", "~/workspace/data"),
    ("models", "~/workspace/models"),
    ("archives", "~/Downloads/Archives"),
    ("installers", "~/.Trash"),
    ("system", "~/.Trash") ]

/-- `FileClassifier()` with default destinations and empty
correlation maps. -/
def freshClassifier : FileClassifier :=
  ⟨defaultDestinations, [], []⟩

/-- POSIX `os.path.join` for two components. -/
def joinPath (a b : String) : String :=
  if b.toList.head? == some '/' then b
  else if a.toList.isEmpty then b
  else if a.toList.getLast? == some '/' then a ++ b
  else a ++ "/" ++ b

/-- Python `f"{m:02d}"` for the month folder. -/
def pad2 (n : Nat) : String :=
  if n < 10 then "0" ++ Nat.repr n else Nat.repr n

/-- `FileClassifier._build_destination`; `now = (year, month)` is the
threaded `datetime.now()` of the run. -/
def buildDestination (dests : List (String × String)) (now : Nat × Nat)
    (category subcategory filename : String) : String :=
  let base := (alookup category dests).getD "~/Downloads/Sorted/Other"
  let d1 :=
    if subcategory ≠ "" ∧ subcategory ≠ "general" then joinPath base (capitalizeA subcategory)
    else base
  let d2 :=
    if subcategory = "photos" then joinPath (joinPath d1 (Nat.repr now.1)) (pad2 now.2)
    else d1
  joinPath d2 filename

/-- `"; ".join(reasons)`. -/
def joinSemicolon : List String → String
  | [] => ""
  | [s] => s
  | s :: rest => s ++ "; " ++ joinSemicolon rest

/-- `FileClassifier._build_reason` (an f-string over a `None`
`duplicate_of` prints `"None"`). -/
def buildReason (category subcategory : String) (is_dup : Bool)
    (dup_of : Option String) : String :=
  let tail := "Classified as " ++ category ++ "/" ++ subcategory
  let rs1 :=
    if is_dup then ["Duplicate detected: " ++ dup_of.getD "None", tail] else [tail]
  let rs2 :=
    if category = "installers" then rs1 ++ ["Installers can be re-downloaded when needed"]
    else rs1
  joinSemicolon rs2

/-- The category/subcategory/confidence resolution of
`FileClassifier.classify_file`: extension lookup, then the
screenshot / photo / document-keyword `elif` chain. -/
def resolveCategory (filename extension : String) : String × String × Rat :=
  let base := (alookup extension CATEGORY_MAP).getD ("unknown", "unknown")
  let confidence0 : Rat := if base.1 ≠ "unknown" then 9/10 else 3/10
  if matchesScreenshot filename then ("images", "screenshots", 95/100)
  else if matchesPhoto filename then ("images", "photos", 95/100)
  else if base.1 = "documents" then
    match analyzeDocumentName filename with
    | some ds => (ds.1, ds.2, 85/100)
    | none => (base.1, base.2, confidence0)
  else (base.1, base.2, confidence0)

/-- The exact-duplicate (fingerprint) check of `classify_file`:
returns the duplicate flag, the referenced original, and the updated
`seen_hashes`.  An empty-string hash is falsy in Python and skips the
check. -/
def hashCheck (sh : List (String × String)) (file_path : String)
    (file_hash : Option String) : Bool × Option String × List (String × String) :=
  match file_hash with
  | some fh =>
    if fh = "" then (false, none, sh)
    else
      match alookup fh sh with
      | some p0 => (true, some p0, sh)
      | none => (false, none, sh ++ [(fh, file_path)])
  | none => (false, none, sh)

/-- `defaultdict(list)` append: `seen_filenames[base].append(path)`. -/
def appendSF : List (String × List String) → String → String → List (String × List String)
  | [], b, p => [(b, [p])]
  | (k, l) :: rest, b, p =>
    if k = b then (k, l ++ [p]) :: rest else (k, l) :: appendSF rest b p

/-- The version-duplicate check of `classify_file`, run after the
fingerprint check (`hash1` is the flag/original the fingerprint check
produced); when the base identity was seen it overwrites both, and in
every matching case it appends the path to the base's list. -/
def versionCheck (sf : List (String × List String)) (file_path filename : String)
    (hash1 : Bool × Option String) : Bool × Option String × List (String × List String) :=
  match checkVersionPattern (pathStem filename) with
  | some b =>
    match alookup b sf with
    | some l => (true, some ("Version of: " ++ l.headD ""), appendSF sf b file_path)
    | none => (hash1.1, hash1.2, appendSF sf b file_path)
  | none => (hash1.1, hash1.2, sf)

/-- `FileClassifier.classify_file`.  Returns the classification and
the classifier with its updated correlation maps; `now` is the
threaded run time used for photo destinations. -/
def classifyFile (cls : FileClassifier) (now : Nat × Nat) (file_path : String)
    (file_hash : Option String) : FileClassification × FileClassifier :=
  let filename := pathName file_path
  let ext1 := strLowerA (pathSuffix filename)
  let extension :=
    if strEndsWith filename ".tar.gz" then ".tar.gz"
    else if strEndsWith filename ".tar.bz2" then ".tar.bz2"
    else ext1
  let cat := resolveCategory filename extension
  let hres := hashCheck cls.seen_hashes file_path file_hash
  let vres := versionCheck cls.seen_filenames file_path filename (hres.1, hres.2.1)
  let is_dup := vres.1
  let dup_of := vres.2.1
  let action := determineAction cat.1 cat.2.1 is_dup
  let dest := buildDestination cls.base_destinations now cat.1 cat.2.1 filename
  let reason := buildReason cat.1 cat.2.1 is_dup dup_of
  (⟨file_path, filename, extension, cat.1, cat.2.1, cat.2.2, dest, action, reason, is_dup, dup_of⟩,
   ⟨cls.base_destinations, hres.2.2, vres.2.2⟩)

/-- `FileClassifier.classify_directory`: the walker's file entries are
supplied as a list of paths (the engine does not walk the filesystem);
dotfiles are skipped, and no fingerprint is passed. -/
def classifyDirectory (cls : FileClassifier) (now : Nat × Nat) :
    List String → List FileClassification × FileClassifier
  | [] => ([], cls)
  | p :: rest =>
    if (pathName p).toList.head? == some '.' then classifyDirectory cls now rest
    else
      let step := classifyFile cls now p none
      let restRes := classifyDirectory step.2 now rest
      (step.1 :: restRes.1, restRes.2)

/-- One entry of the organization plan, as built in
`generate_organization_plan`; `duplicate_of = some v` models the
`"duplicate_of"` key being present with value `v`. -/
structure PlanEntry where
  source : String
  destination : String
  category : String
  subcategory : String
  reason : String
  confidence : Rat
  duplicate_of : Option (Option String)
  deriving Repr, DecidableEq

/-- The four action buckets of the organization plan. -/
structure OrgPlan where
  move : List PlanEntry
  delete : List PlanEntry
  review : List PlanEntry
  keep : List PlanEntry
  deriving Repr, DecidableEq

/-- The entry `generate_organization_plan` builds for one
classification. -/
def planEntryOf (c : FileClassification) : PlanEntry :=
  ⟨c.path, c.suggested_destination, c.category, c.subcategory, c.reason, c.confidence,
   if c.is_duplicate then some c.duplicate_of else none⟩

/-- `FileClassifier.generate_organization_plan`: group the entries by
their `action` field into the four buckets, in order; an action
outside the four bucket names raises `KeyError` in Python, modelled as
`none`. -/
def generatePlan : List FileClassification → Option OrgPlan
  | [] => some ⟨[], [], [], []⟩
  | c :: cs =>
    match generatePlan cs with
    | none => none
    | some p =>
      if c.action = "move" then some { p with move := planEntryOf c :: p.move }
      else if c.action = "delete" then some { p with delete := planEntryOf c :: p.delete }
      else if c.action = "review" then some { p with review := planEntryOf c :: p.review }
      else if c.action = "keep" then some { p with keep := planEntryOf c :: p.keep }
      else none

/-- `CATEGORY_MAP` of the *separate* `FileClassifier` defined in
`src/mcp_server.py`: category → (extension list, destination), in
source order. -/
def mcpCategoryMap : List (String × List String × String) :=
  [ ("documents", [".pdf", ".doc", ".docx", ".txt", ".md", ".rtf", ".odt", ".xls", ".xlsx", ".ppt", ".pptx"], "Documents"),
    ("images", [".jpg", ".jpeg", ".png", ".gif", ".bmp", ".svg", ".webp", ".ico", ".tiff", ".raw"], "Pictures"),
    ("videos", [".mp4", ".avi", ".mkv", ".mov", ".wmv", ".flv", ".webm", ".m4v"], "Videos"),
    ("audio", [".mp3", ".wav", ".flac", ".aac", ".ogg", ".wma", ".m4a"], "Music"),
    ("archives", [".zip", ".tar", ".gz", ".rar", ".7z", ".bz2", ".xz"], "Archives"),
    ("code", [".py", ".js", ".ts", ".java", ".cpp", ".c", ".h", ".go", ".rs", ".rb", ".php"], "Code"),
    ("data", [".json", ".xml", ".yaml", ".yml", ".csv", ".sql", ".db", ".sqlite"], "Data") ]

/-- First category of the MCP map whose extension list contains the
extension. -/
def mcpLookupCat (ext : String) : List (String × List String × String) → Option (String × String)
  | [] => none
  | e :: rest => if e.2.1.contains ext then some (e.1, e.2.2) else mcpLookupCat ext rest

/-- `FileClassifier.classify_file` of `src/mcp_server.py`: stateless
extension lookup; unknown extensions keep the dataclass defaults
(empty destination, `review`).  The dataclass default confidence for
the unknown branch is overwritten to `0.5` by the source. -/
def mcpClassifyFile (file_path : String) : FileClassification :=
  let filename := pathName file_path
  let ext := strLowerA (pathSuffix filename)
  match mcpLookupCat ext mcpCategoryMap with
  | some cd =>
    ⟨file_path, filename, ext, cd.1, "", 9/10, cd.2, "move",
     "File extension matches " ++ cd.1 ++ " category", false, none⟩
  | none =>
    ⟨file_path, filename, ext, "unknown", "", 1/2, "", "review", "Unknown file type", false, none⟩

/-- `versionHit sf filename` says the version-pattern duplicate signal
fires for `filename` against correlation state `sf`. -/
def versionHit (sf : List (String × List String)) (filename : String) : Bool :=
  match checkVersionPattern (pathStem filename) with
  | some b => (alookup b sf).isSome
  | none => false

/-- The four entries of the end-to-end scenario of C6, in the listed
order. -/
def c6Files : List String :=
  ["~/Downloads/invoice_march.pdf", "~/Downloads/invoice_march (1).pdf",
   "~/Downloads/setup.exe", "~/Downloads/random.xyz"]

/-! ### Theorems -/

/-! ### Bridge lemmas: projections of `classifyFile` -/

theorem classify_path_eq (cls : FileClassifier) (now : Nat × Nat) (p : String) (h : Option String) :
    (classifyFile cls now p h).1.path = p := rfl

theorem classify_filename_eq (cls : FileClassifier) (now : Nat × Nat) (p : String) (h : Option String) :
    (classifyFile cls now p h).1.filename = pathName p := rfl

theorem classify_category_eq (cls : FileClassifier) (now : Nat × Nat) (p : String) (h : Option String) :
    (classifyFile cls now p h).1.category
      = (resolveCategory (pathName p) (classifyFile cls now p h).1.extension).1 := rfl

theorem classify_subcategory_eq (cls : FileClassifier) (now : Nat × Nat) (p : String) (h : Option String) :
    (classifyFile cls now p h).1.subcategory
      = (resolveCategory (pathName p) (classifyFile cls now p h).1.extension).2.1 := rfl

theorem classify_confidence_eq (cls : FileClassifier) (now : Nat × Nat) (p : String) (h : Option String) :
    (classifyFile cls now p h).1.confidence
      = (resolveCategory (pathName p) (classifyFile cls now p h).1.extension).2.2 := rfl

theorem classify_action_eq (cls : FileClassifier) (now : Nat × Nat) (p : String) (h : Option String) :
    (classifyFile cls now p h).1.action
      = determineAction (classifyFile cls now p h).1.category
          (classifyFile cls now p h).1.subcategory (classifyFile cls now p h).1.is_duplicate := rfl

theorem classify_isdup_eq (cls : FileClassifier) (now : Nat × Nat) (p : String) (h : Option String) :
    (classifyFile cls now p h).1.is_duplicate
      = (versionCheck cls.seen_filenames p (pathName p)
          ((hashCheck cls.seen_hashes p h).1, (hashCheck cls.seen_hashes p h).2.1)).1 := rfl

theorem classify_dupof_eq (cls : FileClassifier) (now : Nat × Nat) (p : String) (h : Option String) :
    (classifyFile cls now p h).1.duplicate_of
      = (versionCheck cls.seen_filenames p (pathName p)
          ((hashCheck cls.seen_hashes p h).1, (hashCheck cls.seen_hashes p h).2.1)).2.1 := rfl

theorem classify_dest_eq (cls : FileClassifier) (now : Nat × Nat) (p : String) (h : Option String) :
    (classifyFile cls now p h).1.suggested_destination
      = buildDestination cls.base_destinations now (classifyFile cls now p h).1.category
          (classifyFile cls now p h).1.subcategory (pathName p) := rfl

theorem classify_sh_eq (cls : FileClassifier) (now : Nat × Nat) (p : String) (h : Option String) :
    (classifyFile cls now p h).2.seen_hashes = (hashCheck cls.seen_hashes p h).2.2 := rfl

theorem classify_sf_eq (cls : FileClassifier) (now : Nat × Nat) (p : String) (h : Option String) :
    (classifyFile cls now p h).2.seen_filenames
      = (versionCheck cls.seen_filenames p (pathName p)
          ((hashCheck cls.seen_hashes p h).1, (hashCheck cls.seen_hashes p h).2.1)).2.2 := rfl

/-! ### Helper lemmas -/

theorem determineAction_ne_keep (a b : String) (d : Bool) : determineAction a b d ≠ "keep" := by
  unfold determineAction
  split_ifs <;> decide

theorem determineAction_cases (a b : String) (d : Bool) :
    determineAction a b d = "move" ∨ determineAction a b d = "delete" ∨
      determineAction a b d = "review" := by
  unfold determineAction
  split_ifs <;> simp

theorem alookup_mem {α : Type} {k : String} {v : α} :
    ∀ {l : List (String × α)}, alookup k l = some v → (k, v) ∈ l := by
  intro l
  induction l with
  | nil => intro h; simp [alookup] at h
  | cons a as ih =>
    obtain ⟨k2, v2⟩ := a
    intro h
    by_cases hk : k = k2
    · subst hk
      simp [alookup] at h
      subst h
      exact List.mem_cons_self _ _
    · simp [alookup, hk] at h
      exact List.mem_cons_of_mem _ (ih h)

theorem findFirst_mem {α β : Type} {f : α → Option β} {b : β} :
    ∀ {l : List α}, findFirst f l = some b → ∃ a ∈ l, f a = some b := by
  intro l
  induction l with
  | nil => intro h; simp [findFirst] at h
  | cons a as ih =>
    intro h
    rw [findFirst] at h
    cases hf : f a with
    | some b2 =>
      rw [hf] at h
      have h2 : some b2 = some b := h
      exact ⟨a, List.mem_cons_self _ _, hf.trans h2⟩
    | none =>
      rw [hf] at h
      have h2 : findFirst f as = some b := h
      obtain ⟨a2, ha2, hfa2⟩ := ih h2
      exact ⟨a2, List.mem_cons_of_mem _ ha2, hfa2⟩

theorem catmap_sub_ne : ∀ pr ∈ CATEGORY_MAP, pr.2.2 ≠ "" := by decide

theorem keywords_sub_ne : ∀ pr ∈ DOCUMENT_KEYWORDS, pr.2.2 ≠ "" := by decide

theorem resolveCategory_sub_ne (fn ext : String) : (resolveCategory fn ext).2.1 ≠ "" := by
  unfold resolveCategory
  have hb2 : ((alookup ext CATEGORY_MAP).getD ("unknown", "unknown")).2 ≠ "" := by
    cases ha : alookup ext CATEGORY_MAP with
    | none => decide
    | some v =>
      rw [Option.getD_some]
      exact catmap_sub_ne _ (alookup_mem ha)
  by_cases h1 : matchesScreenshot fn
  · simp [h1]
  · by_cases h2 : matchesPhoto fn
    · simp [h1, h2]
    · by_cases h3 : ((alookup ext CATEGORY_MAP).getD ("unknown", "unknown")).1 = "documents"
      · simp only [h1, h2, h3, Bool.false_eq_true, if_false, if_true]
        cases hds : analyzeDocumentName fn with
        | some ds =>
          simp only [hds]
          obtain ⟨kv, hmem, hkv⟩ := findFirst_mem hds
          split at hkv
          · have h4 : ((if kv.2.1 = "images" then "documents" else kv.2.1), kv.2.2) = ds :=
              Option.some_injective _ hkv
            have h5 : ds.2 = kv.2.2 := by rw [← h4]
            show ds.2 ≠ ""
            rw [h5]
            exact keywords_sub_ne kv hmem
          · simp at hkv
        | none =>
          simp only [hds]
          exact hb2
      · simp only [h1, h2, h3, Bool.false_eq_true, if_false]
        exact hb2

theorem classify_sub_ne (cls : FileClassifier) (now : Nat × Nat) (p : String) (h : Option String) :
    (classifyFile cls now p h).1.subcategory ≠ "" := by
  rw [classify_subcategory_eq]
  exact resolveCategory_sub_ne _ _

/-- C1: For every file classified by `classify_file`, the `action` field is
determined by the first applicable rule in the fixed order
duplicate → review, installers → delete, system → delete,
unknown → review, otherwise move; consequently the action is never
`keep`. -/
theorem c1_action_rules (cls : FileClassifier) (now : Nat × Nat) (p : String) (h : Option String) :
    (classifyFile cls now p h).1.action
      = (if (classifyFile cls now p h).1.is_duplicate then "review"
         else if (classifyFile cls now p h).1.category = "installers" then "delete"
         else if (classifyFile cls now p h).1.category = "system" then "delete"
         else if (classifyFile cls now p h).1.category = "unknown" then "review"
         else "move")
    ∧ (classifyFile cls now p h).1.action ≠ "keep" := by
  constructor
  · rw [classify_action_eq]
    rfl
  · rw [classify_action_eq]
    exact determineAction_ne_keep _ _ _

/-- C8: `classify_file` is total: for every classifier state, run time,
path string and optional fingerprint it returns a classification
record (whose `path` is the input path and whose action is one of
move/delete/review); no failure case exists in the embedding because
none exists in the source. -/
theorem c8_classify_total (cls : FileClassifier) (now : Nat × Nat) (p : String) (h : Option String) :
    ∃ (c : FileClassification) (cls2 : FileClassifier),
      classifyFile cls now p h = (c, cls2) ∧ c.path = p ∧
        (c.action = "move" ∨ c.action = "delete" ∨ c.action = "review") := by
  refine ⟨(classifyFile cls now p h).1, (classifyFile cls now p h).2, rfl, rfl, ?_⟩
  rw [classify_action_eq]
  exact determineAction_cases _ _ _



theorem resolveCategory_screenshot (fn ext : String) (h : matchesScreenshot fn = true) :
    resolveCategory fn ext = ("images", "screenshots", 95/100) := by
  unfold resolveCategory
  simp [h]

/-- C5: whenever the filename starts (case-insensitively) with one of
the six screenshot tokens, `classify_file` resolves to
images/screenshots with confidence 0.95, overriding the
extension-derived category and skipping the photo and keyword
matchers; in particular `Screenshot 2024-01-01 at 10.00.00.png`
resolves to images/screenshots at 0.95 even though its `.png`
extension alone maps to images/graphic. -/
theorem c5_screenshot_override :
    (∀ (cls : FileClassifier) (now : Nat × Nat) (p : String) (h : Option String),
      matchesScreenshot (pathName p) = true →
        (classifyFile cls now p h).1.category = "images" ∧
        (classifyFile cls now p h).1.subcategory = "screenshots" ∧
        (classifyFile cls now p h).1.confidence = 95/100)
    ∧ (classifyFile freshClassifier (2024, 1) "Screenshot 2024-01-01 at 10.00.00.png" none).1.category = "images"
    ∧ (classifyFile freshClassifier (2024, 1) "Screenshot 2024-01-01 at 10.00.00.png" none).1.subcategory = "screenshots"
    ∧ (classifyFile freshClassifier (2024, 1) "Screenshot 2024-01-01 at 10.00.00.png" none).1.confidence = 95/100
    ∧ (classifyFile freshClassifier (2024, 1) "Screenshot 2024-01-01 at 10.00.00.png" none).1.extension = ".png"
    ∧ alookup ".png" CATEGORY_MAP = some ("images", "graphic") := by
  refine ⟨?_, by decide, by decide, by rfl, by decide, by decide⟩
  intro cls now p h hscr
  rw [classify_category_eq, classify_subcategory_eq, classify_confidence_eq,
    resolveCategory_screenshot _ _ hscr]
  exact ⟨rfl, rfl, rfl⟩

/-- Witness for C5 at the concrete screenshot file of the claim. -/
theorem c5_screenshot_override_witness :
    matchesScreenshot (pathName "Screenshot 2024-01-01 at 10.00.00.png") = true
    ∧ ((classifyFile freshClassifier (2024, 1) "Screenshot 2024-01-01 at 10.00.00.png" none).1.category = "images"
       ∧ (classifyFile freshClassifier (2024, 1) "Screenshot 2024-01-01 at 10.00.00.png" none).1.subcategory = "screenshots"
       ∧ (classifyFile freshClassifier (2024, 1) "Screenshot 2024-01-01 at 10.00.00.png" none).1.confidence = 95/100) :=
  ⟨by decide,
   c5_screenshot_override.1 freshClassifier (2024, 1)
     "Screenshot 2024-01-01 at 10.00.00.png" none (by decide)⟩

/-- C9 counterexample: the MCP server's classifier is not the core
engine; on `setup.exe` the two disagree on category and action. -/
theorem c9_counterexample :
    (mcpClassifyFile "setup.exe").category
        ≠ (classifyFile freshClassifier (2024, 1) "setup.exe" none).1.category
    ∧ (mcpClassifyFile "setup.exe").action
        ≠ (classifyFile freshClassifier (2024, 1) "setup.exe" none).1.action
    ∧ (mcpClassifyFile "setup.exe").category = "unknown"
    ∧ (classifyFile freshClassifier (2024, 1) "setup.exe" none).1.category = "installers" := by
  refine ⟨by decide, by decide, by decide, by decide⟩

/-- C9 (amended): the MCP server defines its own `FileClassifier`
with its own extension lists; it only ever produces the actions
`move` (known extension) or `review` (unknown), so it is a separate
implementation from the core engine, and the two differ, e.g. on
`setup.exe` (core: installers/delete into `~/.Trash/...`; MCP:
unknown/review with empty destination). -/
theorem c9_mcp_separate :
    (∀ p : String, (mcpClassifyFile p).action = "move" ∨ (mcpClassifyFile p).action = "review")
    ∧ (mcpClassifyFile "setup.exe").category = "unknown"
    ∧ (mcpClassifyFile "setup.exe").action = "review"
    ∧ (mcpClassifyFile "setup.exe").suggested_destination = ""
    ∧ (classifyFile freshClassifier (2024, 1) "setup.exe" none).1.category = "installers"
    ∧ (classifyFile freshClassifier (2024, 1) "setup.exe" none).1.action = "delete"
    ∧ (classifyFile freshClassifier (2024, 1) "setup.exe" none).1.suggested_destination
        = "~/.Trash/Windows/setup.exe" := by
  refine ⟨?_, by decide, by decide, by decide, by decide, by decide, by decide⟩
  intro p
  unfold mcpClassifyFile
  cases hm : mcpLookupCat (strLowerA (pathSuffix (pathName p))) mcpCategoryMap with
  | some cd => simp [hm]
  | none => simp [hm]

/-- C2: for every list of classifications whose actions all lie in
the four bucket names, `generate_organization_plan` succeeds and
partitions the entries: each bucket is exactly the in-order image of
the classifications carrying that action (no reordering, no
deduplication, no extra decision logic), and the bucket sizes sum to
the input length. -/
theorem c2_plan_partition (cs : List FileClassification)
    (h : ∀ c ∈ cs, c.action = "move" ∨ c.action = "delete" ∨ c.action = "review" ∨ c.action = "keep") :
    ∃ p : OrgPlan, generatePlan cs = some p
      ∧ p.move = (cs.filter (fun c => c.action == "move")).map planEntryOf
      ∧ p.delete = (cs.filter (fun c => c.action == "delete")).map planEntryOf
      ∧ p.review = (cs.filter (fun c => c.action == "review")).map planEntryOf
      ∧ p.keep = (cs.filter (fun c => c.action == "keep")).map planEntryOf
      ∧ p.move.length + p.delete.length + p.review.length + p.keep.length = cs.length := by
  induction cs with
  | nil => exact ⟨⟨[], [], [], []⟩, rfl, rfl, rfl, rfl, rfl, rfl⟩
  | cons c cs ih =>
    obtain ⟨p, hp, h1, h2, h3, h4, h5⟩ := ih (fun x hx => h x (List.mem_cons_of_mem _ hx))
    have hc := h c (List.mem_cons_self _ _)
    rcases hc with hm | hm | hm | hm
    · refine ⟨{ p with move := planEntryOf c :: p.move }, ?_, ?_, ?_, ?_, ?_, ?_⟩
      · rw [generatePlan, hp]; simp [hm]
      · simp [List.filter_cons, hm, h1]
      · simp [List.filter_cons, hm, h2]
      · simp [List.filter_cons, hm, h3]
      · simp [List.filter_cons, hm, h4]
      · simp only [List.length_cons, List.length]
        omega
    · refine ⟨{ p with delete := planEntryOf c :: p.delete }, ?_, ?_, ?_, ?_, ?_, ?_⟩
      · rw [generatePlan, hp]; simp [hm]
      · simp [List.filter_cons, hm, h1]
      · simp [List.filter_cons, hm, h2]
      · simp [List.filter_cons, hm, h3]
      · simp [List.filter_cons, hm, h4]
      · simp only [List.length_cons, List.length]
        omega
    · refine ⟨{ p with review := planEntryOf c :: p.review }, ?_, ?_, ?_, ?_, ?_, ?_⟩
      · rw [generatePlan, hp]; simp [hm]
      · simp [List.filter_cons, hm, h1]
      · simp [List.filter_cons, hm, h2]
      · simp [List.filter_cons, hm, h3]
      · simp [List.filter_cons, hm, h4]
      · simp only [List.length_cons, List.length]
        omega
    · refine ⟨{ p with keep := planEntryOf c :: p.keep }, ?_, ?_, ?_, ?_, ?_, ?_⟩
      · rw [generatePlan, hp]; simp [hm]
      · simp [List.filter_cons, hm, h1]
      · simp [List.filter_cons, hm, h2]
      · simp [List.filter_cons, hm, h3]
      · simp [List.filter_cons, hm, h4]
      · simp only [List.length_cons, List.length]
        omega

/-- Witness for C2 on a concrete two-element list produced by the
engine itself. -/
theorem c2_plan_partition_witness :
    (∀ c ∈ [(classifyFile freshClassifier (2024, 1) "setup.exe" none).1,
            (classifyFile freshClassifier (2024, 1) "random.xyz" none).1],
        c.action = "move" ∨ c.action = "delete" ∨ c.action = "review" ∨ c.action = "keep")
    ∧ (∃ p : OrgPlan,
        generatePlan [(classifyFile freshClassifier (2024, 1) "setup.exe" none).1,
                      (classifyFile freshClassifier (2024, 1) "random.xyz" none).1] = some p
        ∧ p.move = (([(classifyFile freshClassifier (2024, 1) "setup.exe" none).1,
                      (classifyFile freshClassifier (2024, 1) "random.xyz" none).1].filter
                        (fun c => c.action == "move")).map planEntryOf)
        ∧ p.delete = (([(classifyFile freshClassifier (2024, 1) "setup.exe" none).1,
                        (classifyFile freshClassifier (2024, 1) "random.xyz" none).1].filter
                          (fun c => c.action == "delete")).map planEntryOf)
        ∧ p.review = (([(classifyFile freshClassifier (2024, 1) "setup.exe" none).1,
                        (classifyFile freshClassifier (2024, 1) "random.xyz" none).1].filter
                          (fun c => c.action == "review")).map planEntryOf)
        ∧ p.keep = (([(classifyFile freshClassifier (2024, 1) "setup.exe" none).1,
                      (classifyFile freshClassifier (2024, 1) "random.xyz" none).1].filter
                        (fun c => c.action == "keep")).map planEntryOf)
        ∧ p.move.length + p.delete.length + p.review.length + p.keep.length
            = [(classifyFile freshClassifier (2024, 1) "setup.exe" none).1,
               (classifyFile freshClassifier (2024, 1) "random.xyz" none).1].length) :=
  ⟨by decide, c2_plan_partition _ (by decide)⟩

theorem alookup_append_some {α : Type} {k : String} {v : α} {l2 : List (String × α)} :
    ∀ {l1 : List (String × α)}, alookup k l1 = some v → alookup k (l1 ++ l2) = some v := by
  intro l1
  induction l1 with
  | nil => intro h; simp [alookup] at h
  | cons a as ih =>
    obtain ⟨k2, v2⟩ := a
    intro h
    by_cases hk : k = k2
    · simp_all [alookup]
    · simp only [alookup, hk, if_false] at h
      simp only [List.cons_append, alookup, hk, if_false]
      exact ih h

theorem alookup_append_fresh {α : Type} {k : String} (v : α) :
    ∀ {l : List (String × α)}, alookup k l = none → alookup k (l ++ [(k, v)]) = some v := by
  intro l
  induction l with
  | nil => intro _; simp [alookup]
  | cons a as ih =>
    obtain ⟨k2, v2⟩ := a
    intro h
    by_cases hk : k = k2
    · simp [alookup, hk] at h
    · simp only [alookup, hk, if_false] at h
      simp only [List.cons_append, alookup, hk, if_false]
      exact ih h

theorem versionCheck_no_hit (sf : List (String × List String)) (p fn : String)
    (h1 : Bool × Option String) (hv : versionHit sf fn = false) :
    (versionCheck sf p fn h1).1 = h1.1 ∧ (versionCheck sf p fn h1).2.1 = h1.2 := by
  unfold versionHit at hv
  unfold versionCheck
  cases hc : checkVersionPattern (pathStem fn) with
  | none => simp [hc]
  | some b =>
    rw [hc] at hv
    have hv2 : (alookup b sf).isSome = false := hv
    cases ha : alookup b sf with
    | none => simp [hc, ha]
    | some l => rw [ha] at hv2; simp at hv2

theorem hashCheck_fresh (sh : List (String × String)) (p fp : String)
    (hne : fp ≠ "") (hq : alookup fp sh = none) :
    hashCheck sh p (some fp) = (false, none, sh ++ [(fp, p)]) := by
  unfold hashCheck
  simp [hne, hq]

theorem hashCheck_found (sh : List (String × String)) (p fp q : String)
    (hne : fp ≠ "") (hq : alookup fp sh = some q) :
    hashCheck sh p (some fp) = (true, some q, sh) := by
  unfold hashCheck
  simp [hne, hq]

theorem hashCheck_sh_mono (sh : List (String × String)) (p : String) (h : Option String)
    (k v : String) (hk : alookup k sh = some v) :
    alookup k (hashCheck sh p h).2.2 = some v := by
  unfold hashCheck
  cases h with
  | none => exact hk
  | some fh =>
    by_cases he : fh = ""
    · simp only [he, if_true]; exact hk
    · simp only [he, if_false]
      cases hq : alookup fh sh with
      | some p0 => simp only [hq]; exact hk
      | none => simp only [hq]; exact alookup_append_some hk

/-- C3 counterexample: two files with equal fingerprints whose names
also match a version pattern with the same base; the second file's
`duplicate_of` is the version message, not the first file's path, so
the claim's `B.duplicate_of = A.path` fails. -/
theorem c3_counterexample :
    (classifyFile freshClassifier (2024, 1) "report_v1.pdf" (some "h123")).1.is_duplicate = false
    ∧ (classifyFile (classifyFile freshClassifier (2024, 1) "report_v1.pdf" (some "h123")).2
        (2024, 1) "report_v2.pdf" (some "h123")).1.is_duplicate = true
    ∧ (classifyFile (classifyFile freshClassifier (2024, 1) "report_v1.pdf" (some "h123")).2
        (2024, 1) "report_v2.pdf" (some "h123")).1.duplicate_of
        = some "Version of: report_v1.pdf"
    ∧ (classifyFile (classifyFile freshClassifier (2024, 1) "report_v1.pdf" (some "h123")).2
        (2024, 1) "report_v2.pdf" (some "h123")).1.duplicate_of ≠ some "report_v1.pdf" := by
  refine ⟨by decide, by decide, by decide, by decide⟩

/-- C3 (amended): provided the shared fingerprint is non-empty and not
already recorded, and neither classification triggers the
version-pattern duplicate signal, classifying A then B with the same
fingerprint in one instance marks A canonical and B a duplicate of
A's path; the reverse order is the same statement with the roles of A
and B swapped, so order alone decides canonicity.  Independently,
`seen_hashes` entries are never removed by a classification. -/
theorem c3_duplicate_order :
    (∀ (cls : FileClassifier) (now : Nat × Nat) (A B fp : String),
      fp ≠ "" →
      alookup fp cls.seen_hashes = none →
      versionHit cls.seen_filenames (pathName A) = false →
      versionHit (classifyFile cls now A (some fp)).2.seen_filenames (pathName B) = false →
        (classifyFile cls now A (some fp)).1.is_duplicate = false
        ∧ (classifyFile (classifyFile cls now A (some fp)).2 now B (some fp)).1.is_duplicate = true
        ∧ (classifyFile (classifyFile cls now A (some fp)).2 now B (some fp)).1.duplicate_of = some A)
    ∧ (∀ (cls : FileClassifier) (now : Nat × Nat) (p : String) (h : Option String) (k v : String),
        alookup k cls.seen_hashes = some v →
        alookup k (classifyFile cls now p h).2.seen_hashes = some v) := by
  constructor
  · intro cls now A B fp hne hfr hv1 hv2
    have hA := hashCheck_fresh cls.seen_hashes A fp hne hfr
    have hAdup : (classifyFile cls now A (some fp)).1.is_duplicate = false := by
      rw [classify_isdup_eq, (versionCheck_no_hit _ _ _ _ hv1).1, hA]
    have hsh1 : (classifyFile cls now A (some fp)).2.seen_hashes
        = cls.seen_hashes ++ [(fp, A)] := by
      rw [classify_sh_eq, hA]
    have hlk : alookup fp (classifyFile cls now A (some fp)).2.seen_hashes = some A := by
      rw [hsh1]
      exact alookup_append_fresh A hfr
    have hB := hashCheck_found (classifyFile cls now A (some fp)).2.seen_hashes B fp A hne hlk
    refine ⟨hAdup, ?_, ?_⟩
    · rw [classify_isdup_eq, (versionCheck_no_hit _ _ _ _ hv2).1, hB]
    · rw [classify_dupof_eq, (versionCheck_no_hit _ _ _ _ hv2).2, hB]
  · intro cls now p h k v hk
    rw [classify_sh_eq]
    exact hashCheck_sh_mono cls.seen_hashes p h k v hk

/-- Witness for C3 (amended) on two plainly named files sharing a
fingerprint, plus the `seen_hashes` monotonicity part after a further
classification. -/
theorem c3_duplicate_order_witness :
    (("h1" : String) ≠ ""
     ∧ alookup "h1" freshClassifier.seen_hashes = none
     ∧ versionHit freshClassifier.seen_filenames (pathName "a.txt") = false
     ∧ versionHit (classifyFile freshClassifier (2024, 1) "a.txt" (some "h1")).2.seen_filenames
         (pathName "b.txt") = false)
    ∧ ((classifyFile freshClassifier (2024, 1) "a.txt" (some "h1")).1.is_duplicate = false
       ∧ (classifyFile (classifyFile freshClassifier (2024, 1) "a.txt" (some "h1")).2
           (2024, 1) "b.txt" (some "h1")).1.is_duplicate = true
       ∧ (classifyFile (classifyFile freshClassifier (2024, 1) "a.txt" (some "h1")).2
           (2024, 1) "b.txt" (some "h1")).1.duplicate_of = some "a.txt")
    ∧ alookup "h1"
        (classifyFile (classifyFile freshClassifier (2024, 1) "a.txt" (some "h1")).2
          (2024, 1) "c.txt" none).2.seen_hashes = some "a.txt" :=
  ⟨⟨by decide, by decide, by decide, by decide⟩,
   c3_duplicate_order.1 freshClassifier (2024, 1) "a.txt" "b.txt" "h1"
     (by decide) (by decide) (by decide) (by decide),
   c3_duplicate_order.2 (classifyFile freshClassifier (2024, 1) "a.txt" (some "h1")).2
     (2024, 1) "c.txt" none "h1" "a.txt" (by decide)⟩

theorem alookup_appendSF (b p : String) :
    ∀ sf : List (String × List String),
      alookup b (appendSF sf b p) = some ((alookup b sf).getD [] ++ [p]) := by
  intro sf
  induction sf with
  | nil => simp [appendSF, alookup]
  | cons kv rest ih =>
    obtain ⟨k, l⟩ := kv
    by_cases hk : k = b
    · subst hk
      simp [appendSF, alookup]
    · have hk2 : b ≠ k := fun h => hk h.symm
      simp only [appendSF, hk, if_false, alookup, hk2]
      exact ih

theorem versionCheck_hit (sf : List (String × List String)) (p fn : String)
    (h1 : Bool × Option String) (b q : String) (l : List String)
    (hc : checkVersionPattern (pathStem fn) = some b)
    (ha : alookup b sf = some (q :: l)) :
    versionCheck sf p fn h1 = (true, some ("Version of: " ++ q), appendSF sf b p) := by
  unfold versionCheck
  simp [hc, ha]

theorem versionCheck_new (sf : List (String × List String)) (p fn : String)
    (h1 : Bool × Option String) (b : String)
    (hc : checkVersionPattern (pathStem fn) = some b)
    (ha : alookup b sf = none) :
    versionCheck sf p fn h1 = (h1.1, h1.2, appendSF sf b p) := by
  unfold versionCheck
  simp [hc, ha]

theorem versionCheck_sf_append (sf : List (String × List String)) (p fn : String)
    (h1 : Bool × Option String) (b : String)
    (hc : checkVersionPattern (pathStem fn) = some b) :
    (versionCheck sf p fn h1).2.2 = appendSF sf b p := by
  unfold versionCheck
  cases ha : alookup b sf <;> simp [hc, ha]

/-- C4: whenever the stem of the classified file's name matches a
version-marker pattern with extracted base identity `b`, (i) the run
state afterwards tracks the file's path appended to `b`'s list, in
all cases; (ii) if `b` was seen earlier (its list is nonempty) the
file is marked a duplicate with `duplicate_of` = "Version of: " ++
the first tracked path; (iii) if `b` is new, the duplicate flag and
reference are exactly what the fingerprint check produced; and (iv)
on the claim's concrete run `report_v1.pdf`, `report_v2.pdf`,
`report_final.pdf` (fresh instance, no fingerprints) the second and
third files are duplicates referencing `report_v1.pdf` and the first
is not a duplicate. -/
theorem c4_version_grouping :
    (∀ (cls : FileClassifier) (now : Nat × Nat) (p : String) (h : Option String) (b : String),
      checkVersionPattern (pathStem (pathName p)) = some b →
        alookup b (classifyFile cls now p h).2.seen_filenames
          = some ((alookup b cls.seen_filenames).getD [] ++ [p]))
    ∧ (∀ (cls : FileClassifier) (now : Nat × Nat) (p : String) (h : Option String)
        (b q : String) (l : List String),
        checkVersionPattern (pathStem (pathName p)) = some b →
        alookup b cls.seen_filenames = some (q :: l) →
          (classifyFile cls now p h).1.is_duplicate = true
          ∧ (classifyFile cls now p h).1.duplicate_of = some ("Version of: " ++ q))
    ∧ (∀ (cls : FileClassifier) (now : Nat × Nat) (p : String) (h : Option String) (b : String),
        checkVersionPattern (pathStem (pathName p)) = some b →
        alookup b cls.seen_filenames = none →
          (classifyFile cls now p h).1.is_duplicate = (hashCheck cls.seen_hashes p h).1
          ∧ (classifyFile cls now p h).1.duplicate_of = (hashCheck cls.seen_hashes p h).2.1)
    ∧ (classifyFile freshClassifier (2024, 1) "report_v1.pdf" none).1.is_duplicate = false
    ∧ (classifyFile (classifyFile freshClassifier (2024, 1) "report_v1.pdf" none).2
        (2024, 1) "report_v2.pdf" none).1.is_duplicate = true
    ∧ (classifyFile (classifyFile freshClassifier (2024, 1) "report_v1.pdf" none).2
        (2024, 1) "report_v2.pdf" none).1.duplicate_of = some "Version of: report_v1.pdf"
    ∧ (classifyFile (classifyFile (classifyFile freshClassifier (2024, 1) "report_v1.pdf" none).2
        (2024, 1) "report_v2.pdf" none).2 (2024, 1) "report_final.pdf" none).1.is_duplicate = true
    ∧ (classifyFile (classifyFile (classifyFile freshClassifier (2024, 1) "report_v1.pdf" none).2
        (2024, 1) "report_v2.pdf" none).2 (2024, 1) "report_final.pdf" none).1.duplicate_of
        = some "Version of: report_v1.pdf" := by
  refine ⟨?_, ?_, ?_, by decide, by decide, by decide, by decide, by decide⟩
  · intro cls now p h b hc
    rw [classify_sf_eq, versionCheck_sf_append _ _ _ _ _ hc]
    exact alookup_appendSF b p cls.seen_filenames
  · intro cls now p h b q l hc ha
    constructor
    · rw [classify_isdup_eq, versionCheck_hit _ _ _ _ _ _ _ hc ha]
    · rw [classify_dupof_eq, versionCheck_hit _ _ _ _ _ _ _ hc ha]
  · intro cls now p h b hc ha
    constructor
    · rw [classify_isdup_eq, versionCheck_new _ _ _ _ _ hc ha]
    · rw [classify_dupof_eq, versionCheck_new _ _ _ _ _ hc ha]

/-- Witness for C4, exercising the append part and the
duplicate-marking part on concrete states. -/
theorem c4_version_grouping_witness :
    (checkVersionPattern (pathStem (pathName "report_v2.pdf")) = some "report"
     ∧ alookup "report"
         (FileClassifier.mk defaultDestinations [] [("report", ["old_report.pdf"])]).seen_filenames
         = some ("old_report.pdf" :: []))
    ∧ alookup "report"
        (classifyFile (FileClassifier.mk defaultDestinations [] [("report", ["old_report.pdf"])])
          (2024, 1) "report_v2.pdf" none).2.seen_filenames
        = some ((alookup "report"
            (FileClassifier.mk defaultDestinations [] [("report", ["old_report.pdf"])]).seen_filenames).getD []
              ++ ["report_v2.pdf"])
    ∧ ((classifyFile (FileClassifier.mk defaultDestinations [] [("report", ["old_report.pdf"])])
          (2024, 1) "report_v2.pdf" none).1.is_duplicate = true
       ∧ (classifyFile (FileClassifier.mk defaultDestinations [] [("report", ["old_report.pdf"])])
          (2024, 1) "report_v2.pdf" none).1.duplicate_of = some ("Version of: " ++ "old_report.pdf")) :=
  ⟨⟨by decide, by decide⟩,
   c4_version_grouping.1 (FileClassifier.mk defaultDestinations [] [("report", ["old_report.pdf"])])
     (2024, 1) "report_v2.pdf" none "report" (by decide),
   c4_version_grouping.2.1 (FileClassifier.mk defaultDestinations [] [("report", ["old_report.pdf"])])
     (2024, 1) "report_v2.pdf" none "report" "old_report.pdf" [] (by decide) (by decide)⟩

/-- C7: the suggested destination of every classification is composed
as base(category) / capitalized subcategory (omitted exactly for the
literal "general", subcategories being never empty) / year and
zero-padded month of the threaded run time (photos only) / original
filename, with the base drawn from the instance's destination map;
the built-in defaults send documents, images, installers and system
to the directories the claim lists. -/
theorem c7_destination_composition (cls : FileClassifier) (now : Nat × Nat) (p : String)
    (h : Option String) :
    ((classifyFile cls now p h).1.suggested_destination
      = (let base := (alookup (classifyFile cls now p h).1.category cls.base_destinations).getD
            "~/Downloads/Sorted/Other"
         let d1 := if (classifyFile cls now p h).1.subcategory = "general" then base
           else joinPath base (capitalizeA (classifyFile cls now p h).1.subcategory)
         let d2 := if (classifyFile cls now p h).1.subcategory = "photos" then
             joinPath (joinPath d1 (Nat.repr now.1)) (pad2 now.2)
           else d1
         joinPath d2 (classifyFile cls now p h).1.filename))
    ∧ alookup "documents" defaultDestinations = some "~/Documents/Sorted"
    ∧ alookup "images" defaultDestinations = some "~/Pictures/Sorted"
    ∧ alookup "installers" defaultDestinations = some "~/.Trash"
    ∧ alookup "system" defaultDestinations = some "~/.Trash" := by
  refine ⟨?_, by decide, by decide, by decide, by decide⟩
  have hne := classify_sub_ne cls now p h
  rw [classify_dest_eq, classify_filename_eq]
  unfold buildDestination
  by_cases hg : (classifyFile cls now p h).1.subcategory = "general"
  · simp [hg]
  · simp [hg, hne]

/-- C10: when the classification's category has no entry in the
instance's destination map, the destination is composed under the
fallback base `~/Downloads/Sorted/Other`; with the built-in defaults
this holds for `unknown` and for every keyword-derived category
(finance, legal, career, work); in particular `invoice.pdf` is
classified finance/invoices and destined to
`~/Downloads/Sorted/Other/Invoices/invoice.pdf`, not under
`~/Documents/Sorted`. -/
theorem c10_fallback_destination :
    (∀ (cls : FileClassifier) (now : Nat × Nat) (p : String) (h : Option String),
      alookup (classifyFile cls now p h).1.category cls.base_destinations = none →
        (classifyFile cls now p h).1.suggested_destination
          = (let d1 := if (classifyFile cls now p h).1.subcategory = "general" then
                 "~/Downloads/Sorted/Other"
               else joinPath "~/Downloads/Sorted/Other"
                 (capitalizeA (classifyFile cls now p h).1.subcategory)
             let d2 := if (classifyFile cls now p h).1.subcategory = "photos" then
                 joinPath (joinPath d1 (Nat.repr now.1)) (pad2 now.2)
               else d1
             joinPath d2 (classifyFile cls now p h).1.filename))
    ∧ alookup "unknown" defaultDestinations = none
    ∧ alookup "finance" defaultDestinations = none
    ∧ alookup "legal" defaultDestinations = none
    ∧ alookup "career" defaultDestinations = none
    ∧ alookup "work" defaultDestinations = none
    ∧ (classifyFile freshClassifier (2024, 1) "invoice.pdf" none).1.category = "finance"
    ∧ (classifyFile freshClassifier (2024, 1) "invoice.pdf" none).1.subcategory = "invoices"
    ∧ (classifyFile freshClassifier (2024, 1) "invoice.pdf" none).1.suggested_destination
        = "~/Downloads/Sorted/Other/Invoices/invoice.pdf" := by
  refine ⟨?_, by decide, by decide, by decide, by decide, by decide, by decide, by decide, by decide⟩
  intro cls now p h hl
  have hne := classify_sub_ne cls now p h
  rw [classify_dest_eq, classify_filename_eq]
  unfold buildDestination
  rw [hl]
  by_cases hg : (classifyFile cls now p h).1.subcategory = "general"
  · simp [hg]
  · simp [hg, hne]

/-- Witness for C10: `contract.pdf` resolves to the keyword category
legal, which is absent from the default destination map. -/
theorem c10_fallback_destination_witness :
    alookup (classifyFile freshClassifier (2024, 1) "contract.pdf" none).1.category
        freshClassifier.base_destinations = none
    ∧ (classifyFile freshClassifier (2024, 1) "contract.pdf" none).1.suggested_destination
        = (let d1 := if (classifyFile freshClassifier (2024, 1) "contract.pdf" none).1.subcategory
                = "general" then "~/Downloads/Sorted/Other"
             else joinPath "~/Downloads/Sorted/Other"
               (capitalizeA (classifyFile freshClassifier (2024, 1) "contract.pdf" none).1.subcategory)
           let d2 := if (classifyFile freshClassifier (2024, 1) "contract.pdf" none).1.subcategory
               = "photos" then joinPath (joinPath d1 (Nat.repr 2024)) (pad2 1)
             else d1
           joinPath d2 (classifyFile freshClassifier (2024, 1) "contract.pdf" none).1.filename) :=
  ⟨by decide,
   c10_fallback_destination.1 freshClassifier (2024, 1) "contract.pdf" none (by decide)⟩

/-- C6 counterexample: running `classify_directory` (which passes no
fingerprint) and aggregating, the review bucket holds only
`random.xyz`; `invoice_march (1).pdf` is not marked a duplicate and
lands in the move bucket, contradicting the claimed buckets. -/
theorem c6_counterexample :
    ((generatePlan (classifyDirectory freshClassifier (2024, 5) c6Files).1).map
        (fun pl => pl.review.map PlanEntry.source)) = some ["~/Downloads/random.xyz"]
    ∧ (some ["~/Downloads/random.xyz"] : Option (List String))
        ≠ some ["~/Downloads/invoice_march (1).pdf", "~/Downloads/random.xyz"]
    ∧ (classifyFile (classifyFile freshClassifier (2024, 5) "~/Downloads/invoice_march.pdf" none).2
        (2024, 5) "~/Downloads/invoice_march (1).pdf" none).1.is_duplicate = false
    ∧ (classifyFile (classifyFile freshClassifier (2024, 5) "~/Downloads/invoice_march.pdf" none).2
        (2024, 5) "~/Downloads/invoice_march (1).pdf" none).1.action = "move" := by
  refine ⟨by decide, by decide, by decide, by decide⟩

/-- C6 (amended): for the scenario directory, since
`classify_directory` supplies no fingerprints the byte-identical copy
is not detected, and its version-pattern base identity
(`"invoice_march "`, with the trailing space the greedy group keeps)
was never seen before, so the actual plan is move = both invoice
files (finance/invoices), delete = setup.exe, review = random.xyz
(unknown), keep = []. -/
theorem c6_directory_plan :
    ((generatePlan (classifyDirectory freshClassifier (2024, 5) c6Files).1).map
        (fun pl => pl.move.map PlanEntry.source))
      = some ["~/Downloads/invoice_march.pdf", "~/Downloads/invoice_march (1).pdf"]
    ∧ ((generatePlan (classifyDirectory freshClassifier (2024, 5) c6Files).1).map
        (fun pl => pl.move.map PlanEntry.category)) = some ["finance", "finance"]
    ∧ ((generatePlan (classifyDirectory freshClassifier (2024, 5) c6Files).1).map
        (fun pl => pl.move.map PlanEntry.subcategory)) = some ["invoices", "invoices"]
    ∧ ((generatePlan (classifyDirectory freshClassifier (2024, 5) c6Files).1).map
        (fun pl => pl.delete.map PlanEntry.source)) = some ["~/Downloads/setup.exe"]
    ∧ ((generatePlan (classifyDirectory freshClassifier (2024, 5) c6Files).1).map
        (fun pl => pl.review.map PlanEntry.source)) = some ["~/Downloads/random.xyz"]
    ∧ ((generatePlan (classifyDirectory freshClassifier (2024, 5) c6Files).1).map
        (fun pl => pl.review.map PlanEntry.category)) = some ["unknown"]
    ∧ ((generatePlan (classifyDirectory freshClassifier (2024, 5) c6Files).1).map
        (fun pl => pl.keep.length)) = some 0
    ∧ checkVersionPattern (pathStem (pathName "~/Downloads/invoice_march (1).pdf"))
        = some "invoice_march "
    ∧ checkVersionPattern (pathStem (pathName "~/Downloads/invoice_march.pdf")) = none := by
  refine ⟨by decide, by decide, by decide, by decide, by decide, by decide, by decide,
    by decide, by decide⟩

end StoragePilot
